import Mathlib

/-!
Verification of the workisready-backend service-marketplace backend.

JavaScript strings are modelled as lists of UTF-16 code units
(`List Nat`); JavaScript arrays as Lean lists.  Handlers are embedded as
pure functions from their inputs (the relevant document fields and the
request parameters) to a response value together with the updated
document state.  Database regex filters of the shape
`new RegExp('^' + pat + '$', 'i')` built from the fixed in-code category
table are modelled by a small matcher (`patMatch`) that is exact for the
character alphabet actually occurring in that table (letters, digits,
space, `&`, comma, hyphen, slash, apostrophe, and the regex-special
`(`, `)`, `.`); regexes built from free-form user query strings are
modelled as case-insensitive whole-string comparison, the semantics the
regex has whenever the query contains no regex metacharacter.
-/

namespace WorkIsReady

/-- A JavaScript string: list of UTF-16 code units. -/
abbrev JStr := List Nat

/-- Code units of a Lean string literal, for writing the in-code constants. -/
def js (s : String) : JStr := s.data.map (fun c => c.toNat)

/-- ASCII lower-casing of one code unit (what the `i` regex flag and
`toLowerCase` do on the ASCII range). -/
def toLowerCode (c : Nat) : Nat := if 65 ≤ c ∧ c ≤ 90 then c + 32 else c

/-- Lower-case a string code-unit-wise. -/
def lowerStr (s : JStr) : JStr := s.map toLowerCode

/-- Whitespace test used by `String.prototype.trim` (space, tab, LF, CR). -/
def isWS (c : Nat) : Bool := decide (c = 32 ∨ c = 9 ∨ c = 10 ∨ c = 13)

/-- `String.prototype.trim`: strip leading and trailing whitespace. -/
def trimStr (s : JStr) : JStr :=
  ((s.dropWhile isWS).reverse.dropWhile isWS).reverse

/-- Case-insensitive whole-string equality: the semantics of testing a
string against `new RegExp('^' + q + '$', 'i')` when `q` has no regex
metacharacter. -/
def ciEq (a b : JStr) : Bool := lowerStr a == lowerStr b

/- ------------------------------------------------------------------ -/
/- Sample-work gallery (claims C1, C2, C3).                            -/
/- ------------------------------------------------------------------ -/

/-- Status of a `ProviderUpdateRequest` (`pending → approved | rejected`). -/
inductive ReqStatus where
  | pending
  | approved
  | rejected
deriving DecidableEq, Repr

/-- The change-set fields the approve handler copies when truthy, plus the
newly uploaded sample-work file paths (`newSampleFiles`). -/
structure UpdateRequest where
  status : ReqStatus
  changes_category : Option (List JStr)
  changes_bio : Option JStr
  changes_skills : Option (List JStr)
  changes_experience : Option JStr
  changes_hourlyRate : Option JStr
  changes_availability : Option JStr
  newSampleFiles : List JStr
deriving DecidableEq, Repr

/-- The provider fields touched by the update-request approval handler. -/
structure ProviderDoc where
  category : List JStr
  bio : JStr
  skills : List JStr
  experience : JStr
  hourlyRate : JStr
  availability : JStr
  sampleWork : List JStr
deriving DecidableEq, Repr

/-- JavaScript truthiness of an optional string (`undefined` and `""` are
falsy). -/
def truthyStr (o : Option JStr) : Bool :=
  match o with
  | none => false
  | some s => !s.isEmpty

/-- JavaScript truthiness of an optional array (any array is truthy). -/
def truthyArr (o : Option (List JStr)) : Bool := o.isSome

/-- Admin approve handler `POST /update-requests/:requestId/approve`
(src/routes/admin/providerRoutes.js): copies each truthy change-set field
onto the provider, then, when `newSampleFiles` is non-empty, sets
`sampleWork = [...sampleWork, ...newSampleFiles].slice(0, 10)`; finally
marks the request approved.  The handler never inspects `request.status`. -/
def approveRequest (p : ProviderDoc) (r : UpdateRequest) :
    ProviderDoc × UpdateRequest :=
  let p1 :=
    { p with
      category := match r.changes_category with
        | some c => if truthyArr r.changes_category then c else p.category
        | none => p.category
      bio := match r.changes_bio with
        | some b => if truthyStr r.changes_bio then b else p.bio
        | none => p.bio
      skills := match r.changes_skills with
        | some s => if truthyArr r.changes_skills then s else p.skills
        | none => p.skills
      experience := match r.changes_experience with
        | some e => if truthyStr r.changes_experience then e else p.experience
        | none => p.experience
      hourlyRate := match r.changes_hourlyRate with
        | some h => if truthyStr r.changes_hourlyRate then h else p.hourlyRate
        | none => p.hourlyRate
      availability := match r.changes_availability with
        | some a => if truthyStr r.changes_availability then a else p.availability
        | none => p.availability }
  let p2 :=
    if 0 < r.newSampleFiles.length then
      { p1 with sampleWork := (p1.sampleWork ++ r.newSampleFiles).take 10 }
    else p1
  (p2, { r with status := ReqStatus.approved })

/-- Sample-work part of the provider self-update handler `PUT /update`
(src/routes/providerRoutes.js): when the multipart request carries
`sampleWork` files, `sampleWork = [...sampleWork, ...newSamples].slice(0, 10)`. -/
def updateSampleWork (existing : List JStr) (uploaded : Option (List JStr)) :
    List JStr :=
  match uploaded with
  | some newSamples => (existing ++ newSamples).take 10
  | none => existing

/-- The gallery contents claimed by the spec: the newest entries up to the
cap, oldest dropped first. -/
def newestUpToCap (existing newFiles : List JStr) : List JStr :=
  let all := existing ++ newFiles
  all.drop (all.length - 10)

/-- Appending then truncating to the cap keeps the existing prefix whole
and only lets the new entries fill the remaining space. -/
lemma take_cap_append {α : Type} (a b : List α) (h : a.length ≤ 10) :
    (a ++ b).take 10 = a ++ b.take (10 - a.length) := by
  rw [List.take_append_eq_append_take, List.take_of_length_le h]

/-- Truncating the appended gallery returns it unchanged exactly when the
existing part already fills the cap (given a non-empty addition). -/
lemma take_cap_append_eq_self_iff {α : Type} (a b : List α)
    (ha : a.length ≤ 10) (hb : b ≠ []) :
    ((a ++ b).take 10 = a ↔ a.length = 10) := by
  constructor
  · intro h
    have hlen := congrArg List.length h
    simp [List.length_take, List.length_append] at hlen
    rcases b with _ | ⟨x, b'⟩
    · exact absurd rfl hb
    · simp at hlen
      omega
  · intro h
    rw [take_cap_append a b ha, h]
    simp

/-- Claim C1 (counterexample): with a full 10-entry gallery and one new
sample file, both the admin approval and the provider self-update keep the
ten OLD entries and drop the new one, so the result is not "the newest
entries up to the cap" the claim describes. -/
theorem C1_counterexample :
    (approveRequest
        ⟨[], [], [], [], [], [], [[0],[1],[2],[3],[4],[5],[6],[7],[8],[9]]⟩
        ⟨ReqStatus.pending, none, none, none, none, none, none, [[10]]⟩).1.sampleWork
      ≠ newestUpToCap [[0],[1],[2],[3],[4],[5],[6],[7],[8],[9]] [[10]] ∧
    updateSampleWork [[0],[1],[2],[3],[4],[5],[6],[7],[8],[9]] (some [[10]])
      ≠ newestUpToCap [[0],[1],[2],[3],[4],[5],[6],[7],[8],[9]] [[10]] := by
  constructor
  · decide
  · decide

/-- Claim C1 (corrected): when approving an update request or applying a
provider self-update makes the combined gallery exceed 10 entries, the
NEWEST entries are dropped, not the oldest: the resulting gallery is the
first 10 entries of (existing ++ new), i.e. every existing entry is kept
and the new files only fill the space left under the cap. -/
theorem C1_corrected (p : ProviderDoc) (r : UpdateRequest) (ex nf : List JStr)
    (hp : p.sampleWork.length ≤ 10) (hex : ex.length ≤ 10) :
    (approveRequest p r).1.sampleWork
        = p.sampleWork ++ r.newSampleFiles.take (10 - p.sampleWork.length) ∧
    updateSampleWork ex (some nf) = ex ++ nf.take (10 - ex.length) := by
  constructor
  · unfold approveRequest
    by_cases h : 0 < r.newSampleFiles.length
    · simp only [h, if_true]
      exact take_cap_append _ _ hp
    · have hnil : r.newSampleFiles = [] := List.length_eq_zero.mp (by omega)
      simp [h, hnil]
  · unfold updateSampleWork
    exact take_cap_append _ _ hex

/-- Claim C1 (witness for the corrected theorem): a 9-entry gallery plus
two new files ends as the nine old entries followed by the first new file. -/
theorem C1_corrected_witness :
    (approveRequest
        ⟨[], [], [], [], [], [], [[0],[1],[2],[3],[4],[5],[6],[7],[8]]⟩
        ⟨ReqStatus.pending, none, none, none, none, none, none, [[20],[21]]⟩).1.sampleWork
        = [[0],[1],[2],[3],[4],[5],[6],[7],[8]]
          ++ ([[20],[21]] : List JStr).take (10 - 9) ∧
    updateSampleWork [[0]] (some [[1]]) = [[0]] ++ ([[1]] : List JStr).take (10 - 1) :=
  ⟨(C1_corrected ⟨[], [], [], [], [], [], [[0],[1],[2],[3],[4],[5],[6],[7],[8]]⟩
      ⟨ReqStatus.pending, none, none, none, none, none, none, [[20],[21]]⟩
      [[0]] [[1]] (by decide) (by decide)).1,
   (C1_corrected ⟨[], [], [], [], [], [], [[0],[1],[2],[3],[4],[5],[6],[7],[8]]⟩
      ⟨ReqStatus.pending, none, none, none, none, none, none, [[20],[21]]⟩
      [[0]] [[1]] (by decide) (by decide)).2⟩

/-- Claim C2 (confirmed): starting from a gallery within the schema cap of
10 (enforced by the `sampleWork` validator), both the admin approval and
the provider self-update leave the gallery with at most 10 entries, however
many entries existed before and however many files are appended. -/
theorem C2_sampleWork_cap (p : ProviderDoc) (r : UpdateRequest)
    (ex : List JStr) (o : Option (List JStr))
    (hp : p.sampleWork.length ≤ 10) (hex : ex.length ≤ 10) :
    (approveRequest p r).1.sampleWork.length ≤ 10 ∧
    (updateSampleWork ex o).length ≤ 10 := by
  constructor
  · unfold approveRequest
    by_cases h : 0 < r.newSampleFiles.length
    · simp only [h, if_true]
      simp [List.length_take]
    · simp [h, hp]
  · unfold updateSampleWork
    cases o with
    | none => simpa using hex
    | some files => simp [List.length_take]

/-- Claim C2 (witness): a 10-entry gallery plus three new files stays at
10 entries for both operations. -/
theorem C2_sampleWork_cap_witness :
    (approveRequest
        ⟨[], [], [], [], [], [], [[0],[1],[2],[3],[4],[5],[6],[7],[8],[9]]⟩
        ⟨ReqStatus.pending, none, none, none, none, none, none, [[10],[11],[12]]⟩).1.sampleWork.length ≤ 10 ∧
    (updateSampleWork [[0],[1],[2],[3],[4],[5],[6],[7],[8],[9]]
        (some [[10],[11],[12]])).length ≤ 10 :=
  C2_sampleWork_cap
    ⟨[], [], [], [], [], [], [[0],[1],[2],[3],[4],[5],[6],[7],[8],[9]]⟩
    ⟨ReqStatus.pending, none, none, none, none, none, none, [[10],[11],[12]]⟩
    [[0],[1],[2],[3],[4],[5],[6],[7],[8],[9]] (some [[10],[11],[12]])
    (by decide) (by decide)

/-- Claim C3 (counterexample): approving the same request twice is NOT
idempotent — starting from an empty gallery, a request carrying one new
sample file leaves one copy after the first approval and two copies after
the second, because the approve handler never checks `request.status`. -/
theorem C3_counterexample :
    (approveRequest
        (approveRequest ⟨[], [], [], [], [], [], []⟩
          ⟨ReqStatus.pending, none, none, none, none, none, none, [[97]]⟩).1
        ⟨ReqStatus.pending, none, none, none, none, none, none, [[97]]⟩).1.sampleWork
      ≠ (approveRequest ⟨[], [], [], [], [], [], []⟩
          ⟨ReqStatus.pending, none, none, none, none, none, none, [[97]]⟩).1.sampleWork := by
  decide

/-- Claim C3 (corrected): the approve handler applies the change-set
unconditionally (it never inspects `request.status`), so a second approval
of the same request re-appends `newSampleFiles`: the gallery becomes the
first 10 entries of (gallery-after-first-approval ++ newSampleFiles), and
it equals the gallery after the first approval exactly when that gallery
already holds 10 entries. -/
theorem C3_corrected (p : ProviderDoc) (r : UpdateRequest)
    (hp : p.sampleWork.length ≤ 10) (h : r.newSampleFiles ≠ []) :
    (approveRequest (approveRequest p r).1 r).1.sampleWork
        = ((approveRequest p r).1.sampleWork ++ r.newSampleFiles).take 10 ∧
    ((approveRequest (approveRequest p r).1 r).1.sampleWork
          = (approveRequest p r).1.sampleWork
        ↔ (approveRequest p r).1.sampleWork.length = 10) := by
  have hpos : 0 < r.newSampleFiles.length := List.length_pos.mpr h
  have hsecond :
      (approveRequest (approveRequest p r).1 r).1.sampleWork
        = ((approveRequest p r).1.sampleWork ++ r.newSampleFiles).take 10 := by
    simp only [approveRequest]
    simp [hpos]
  have hfirstlen : (approveRequest p r).1.sampleWork.length ≤ 10 :=
    (C2_sampleWork_cap p r [] none (by simpa using hp) (by simp)).1
  refine ⟨hsecond, ?_⟩
  rw [hsecond]
  exact take_cap_append_eq_self_iff _ _ hfirstlen h

/-- Claim C3 (witness for the corrected theorem): with an empty gallery and
one new file, the second approval yields the 10-truncated double append,
and idempotence fails because the first approval left only 1 entry. -/
theorem C3_corrected_witness :
    (approveRequest
        (approveRequest ⟨[], [], [], [], [], [], []⟩
          ⟨ReqStatus.pending, none, none, none, none, none, none, [[98]]⟩).1
        ⟨ReqStatus.pending, none, none, none, none, none, none, [[98]]⟩).1.sampleWork
        = ((approveRequest ⟨[], [], [], [], [], [], []⟩
            ⟨ReqStatus.pending, none, none, none, none, none, none, [[98]]⟩).1.sampleWork
           ++ [[98]]).take 10 ∧
    ((approveRequest
        (approveRequest ⟨[], [], [], [], [], [], []⟩
          ⟨ReqStatus.pending, none, none, none, none, none, none, [[98]]⟩).1
        ⟨ReqStatus.pending, none, none, none, none, none, none, [[98]]⟩).1.sampleWork
        = (approveRequest ⟨[], [], [], [], [], [], []⟩
            ⟨ReqStatus.pending, none, none, none, none, none, none, [[98]]⟩).1.sampleWork
      ↔ (approveRequest ⟨[], [], [], [], [], [], []⟩
          ⟨ReqStatus.pending, none, none, none, none, none, none, [[98]]⟩).1.sampleWork.length = 10) :=
  C3_corrected ⟨[], [], [], [], [], [], []⟩
    ⟨ReqStatus.pending, none, none, none, none, none, none, [[98]]⟩
    (by decide) (by decide)

/- ------------------------------------------------------------------ -/
/- Task-list region filter (claim C4).                                 -/
/- ------------------------------------------------------------------ -/

/-- The code units of the lower-case string " region" (the pattern of the
handler's `/ region$/i`). -/
def regionPat : JStr := [32, 114, 101, 103, 105, 111, 110]

/-- Region cleaning in the `GET /tasks` filter builder
(src/routes/taskRoutes.js): `region.replace(/ region$/i, '').trim()` —
drop one trailing " region" (any case), then trim. -/
def cleanRegion (q : JStr) : JStr :=
  if regionPat.isSuffixOf (lowerStr q) then trimStr (q.take (q.length - 7))
  else trimStr q

/-- The region filter the handler issues:
`{region: {$regex: new RegExp('^' + clean + '$', 'i')}}`, i.e. the stored
region field compared case-insensitively, whole-string, against the
cleaned query. -/
def taskRegionMatches (stored q : JStr) : Bool := ciEq stored (cleanRegion q)

/-- Result set of the task listing restricted to its region dimension:
the store is abstracted to the list of the stored tasks' region fields
(all other query parameters are held fixed across the compared queries,
so they filter identically). -/
def tasksInRegion (stored : List JStr) (q : JStr) : List JStr :=
  stored.filter (fun s => taskRegionMatches s q)

lemma isWS_toLowerCode (c : Nat) : isWS (toLowerCode c) = isWS c := by
  unfold toLowerCode isWS
  split
  · next hc => simp only [decide_eq_decide]; omega
  · rfl

lemma lowerStr_dropWhile (s : JStr) :
    lowerStr (s.dropWhile isWS) = (lowerStr s).dropWhile isWS := by
  unfold lowerStr
  rw [List.dropWhile_map]
  have : (isWS ∘ toLowerCode) = isWS := funext isWS_toLowerCode
  rw [this]

lemma lowerStr_reverse (s : JStr) : lowerStr s.reverse = (lowerStr s).reverse :=
  List.map_reverse toLowerCode s

lemma lowerStr_trim (s : JStr) : lowerStr (trimStr s) = trimStr (lowerStr s) := by
  unfold trimStr
  rw [lowerStr_reverse, lowerStr_dropWhile, lowerStr_reverse, lowerStr_dropWhile]

lemma lowerStr_length (s : JStr) : (lowerStr s).length = s.length :=
  List.length_map s toLowerCode

/-- Lower-casing the query does not change the cleaned, lower-cased region. -/
lemma lower_cleanRegion_congr (q q' : JStr) (h : lowerStr q' = lowerStr q) :
    lowerStr (cleanRegion q') = lowerStr (cleanRegion q) := by
  unfold cleanRegion
  rw [h]
  have hlen : q'.length = q.length := by
    rw [← lowerStr_length q', ← lowerStr_length q, h]
  split
  · rw [lowerStr_trim, lowerStr_trim]
    unfold lowerStr
    rw [List.map_take, List.map_take]
    show trimStr ((lowerStr q').take (q'.length - 7)) = trimStr ((lowerStr q).take (q.length - 7))
    rw [h, hlen]
  · rw [lowerStr_trim, lowerStr_trim, h]

/-- Claim C4 (counterexample): the claimed equality of result sets between
`region=r` and `region=r + " region"` fails when `r` itself already ends in
" region".  With stored regions {"x", "x region"} and r = "x region", the
query `r` strips to "x" and returns the first task only, while `r + " region"`
strips to "x region" and returns the second only. -/
theorem C4_counterexample :
    tasksInRegion [[120], [120] ++ regionPat] (([120] ++ regionPat) ++ regionPat)
      ≠ tasksInRegion [[120], [120] ++ regionPat] ([120] ++ regionPat) := by
  decide

/-- Claim C4 (corrected): letter-case variations of the region query always
return the same result set; appending one trailing " region" suffix (in any
case) also returns the same result set PROVIDED the query does not itself
already end in " region" case-insensitively — for queries that do, the
handler strips only one suffix and the result sets differ in general. -/
theorem C4_corrected (ts : List JStr) (q q' sfx : JStr) :
    (lowerStr q' = lowerStr q → tasksInRegion ts q' = tasksInRegion ts q) ∧
    (lowerStr sfx = regionPat → regionPat.isSuffixOf (lowerStr q) = false →
      tasksInRegion ts (q ++ sfx) = tasksInRegion ts q) := by
  constructor
  · intro hcase
    unfold tasksInRegion
    apply List.filter_congr
    intro s _
    unfold taskRegionMatches ciEq
    rw [lower_cleanRegion_congr q q' hcase]
  · intro hsfx hq
    have hclean : cleanRegion (q ++ sfx) = cleanRegion q := by
      unfold cleanRegion
      have h1 : lowerStr (q ++ sfx) = lowerStr q ++ regionPat := by
        rw [← hsfx]
        exact List.map_append toLowerCode q sfx
      have h2 : regionPat.isSuffixOf (lowerStr (q ++ sfx)) = true := by
        rw [h1]
        simp [List.isSuffixOf_iff_suffix]
      have hsfxlen : sfx.length = 7 := by
        have := lowerStr_length sfx
        rw [hsfx] at this
        simpa using this.symm
      rw [h2, hq]
      simp only [if_true, Bool.false_eq_true, if_false]
      have h3 : (q ++ sfx).length - 7 = q.length := by
        simp [List.length_append, hsfxlen]
      rw [h3, List.take_append_eq_append_take, List.take_of_length_le (le_refl q.length),
        Nat.sub_self, List.take_zero, List.append_nil]
    unfold tasksInRegion taskRegionMatches
    rw [hclean]

/-- Claim C4 (witness for the corrected theorem): stored region "Ashanti";
queries "ASHANTI" (case variant) and "Ashanti REGION" (suffix added, upper
case) both return the same single task as "Ashanti". -/
theorem C4_corrected_witness :
    tasksInRegion [js ("Ashanti")] (js ("ASHANTI"))
        = tasksInRegion [js ("Ashanti")] (js ("Ashanti")) ∧
    tasksInRegion [js ("Ashanti")] (js ("Ashanti") ++ js (" REGION"))
        = tasksInRegion [js ("Ashanti")] (js ("Ashanti")) :=
  ⟨(C4_corrected [js ("Ashanti")] (js ("Ashanti")) (js ("ASHANTI")) (js (" REGION"))).1
      (by decide),
   (C4_corrected [js ("Ashanti")] (js ("Ashanti")) (js ("ASHANTI")) (js (" REGION"))).2
      (by decide) (by decide)⟩

/- ------------------------------------------------------------------ -/
/- Task creation (claims C5, C9).                                      -/
/- ------------------------------------------------------------------ -/

/-- A multipart form value for `category`: either one string or an array
of strings (the handler accepts both shapes). -/
inductive CatValue where
  | str (s : JStr)
  | arr (l : List JStr)
deriving DecidableEq, Repr

/-- The request-body fields read by `POST /tasks` (src/routes/taskRoutes.js).
`minBudget`/`maxBudget` (parsed with `parseFloat` into the budget object)
are omitted: floating-point and irrelevant to the claims below. -/
structure TaskCreateReq where
  title : Option JStr
  mainCategory : Option JStr
  category : Option CatValue
  description : Option JStr
  city : Option JStr
  region : Option JStr
  district : Option JStr
  location : Option JStr
  dueDate : Option JStr
  phone : Option JStr
  whatsapp : Option JStr
  additionalContact : Option JStr
deriving DecidableEq, Repr

/-- `location || (city && region ? city + ", " + region : "")`. -/
def finalLocation (r : TaskCreateReq) : JStr :=
  if truthyStr r.location then r.location.getD []
  else if truthyStr r.city && truthyStr r.region then
    (r.city.getD []) ++ [44, 32] ++ (r.region.getD [])
  else []

/-- `whatsapp || additionalContact || ""`. -/
def finalAdditionalContact (r : TaskCreateReq) : JStr :=
  if truthyStr r.whatsapp then r.whatsapp.getD []
  else if truthyStr r.additionalContact then r.additionalContact.getD []
  else []

/-- `!value || value.toString().trim() === ""` for a string-valued field. -/
def strMissing (v : Option JStr) : Bool :=
  match v with
  | none => true
  | some s => trimStr s == []

/-- The missing-field test applied to the raw `category` value:
`Array.prototype.toString` joins the elements with commas. -/
def catMissing (v : Option CatValue) : Bool :=
  match v with
  | none => true
  | some (CatValue.str s) => trimStr s == []
  | some (CatValue.arr l) => trimStr (List.intercalate [44] l) == []

/-- The six keys of the handler's `requiredFields` object, in insertion
order (the order `Object.entries` reports and the 400 message lists). -/
inductive FieldName where
  | title
  | category
  | description
  | location
  | dueDate
  | phone
deriving DecidableEq, Repr

def allFieldNames : List FieldName :=
  [FieldName.title, FieldName.category, FieldName.description,
   FieldName.location, FieldName.dueDate, FieldName.phone]

/-- Whether a given key of `requiredFields` fails the presence test.  The
`location` entry is the derived `finalLocation`, not the raw body field. -/
def fieldMissing (r : TaskCreateReq) : FieldName → Bool
  | FieldName.title => strMissing r.title
  | FieldName.category => catMissing r.category
  | FieldName.description => strMissing r.description
  | FieldName.location => trimStr (finalLocation r) == []
  | FieldName.dueDate => strMissing r.dueDate
  | FieldName.phone => strMissing r.phone

/-- `missingFields`: the keys whose values fail the presence test, in
object order. -/
def missingFields (r : TaskCreateReq) : List FieldName :=
  allFieldNames.filter (fieldMissing r)

/-- `Array.isArray(category) ? category : (typeof category === 'string' ?
[category] : [])`. -/
def categoriesOf (v : Option CatValue) : List JStr :=
  match v with
  | some (CatValue.arr l) => l
  | some (CatValue.str s) => [s]
  | none => []

/-- JavaScript `category[0]` on the RAW submitted value: first element of
an array (`undefined` when empty), first CHARACTER of a string
(`undefined` when empty).  The `none` input would throw in JS but is
unreachable: a missing category fails validation first. -/
def catIndex0 (v : Option CatValue) : Option JStr :=
  match v with
  | some (CatValue.arr l) => l.head?
  | some (CatValue.str []) => none
  | some (CatValue.str (c :: _)) => some [c]
  | none => none

/-- The Task document fields set by the handler (`new Task({...})`).
`dueDate` keeps the raw string (`new Date` parsing abstracted), `budget`
omitted as floating-point. -/
structure NewTask where
  title : JStr
  mainCategory : Option JStr
  category : List JStr
  description : JStr
  location : JStr
  district : JStr
  city : JStr
  region : JStr
  dueDate : JStr
  status : JStr
  completedAt : Option Nat
  phone : JStr
  whatsapp : JStr
  additionalContact : JStr
deriving DecidableEq, Repr

/-- The document constructed by the handler once validation passed (the
`getD []` defaults sit under fields validation guarantees present). -/
def buildTask (r : TaskCreateReq) : NewTask :=
  { title := trimStr (r.title.getD [])
    mainCategory :=
      if truthyStr r.mainCategory then r.mainCategory else catIndex0 r.category
    category := categoriesOf r.category
    description := trimStr (r.description.getD [])
    location := trimStr (finalLocation r)
    district := r.district.getD []
    city := r.city.getD []
    region := r.region.getD []
    dueDate := r.dueDate.getD []
    status := js ("open")
    completedAt := none
    phone := trimStr (r.phone.getD [])
    whatsapp := r.whatsapp.getD []
    additionalContact := trimStr (finalAdditionalContact r) }

/-- The `taskSchema.pre('save')` hook (src/models/Task.js): when
`mainCategory` is falsy and the category array is non-empty, set it to the
first array element. -/
def saveTask (t : NewTask) : NewTask :=
  if !truthyStr t.mainCategory && decide (0 < t.category.length) then
    { t with mainCategory := t.category.head? }
  else t

/-- Outcome of `POST /tasks`: 400 with the missing-key list (rendered as
`"Missing required fields: " + missing.join(", ")`), or 201 with the
saved task. -/
inductive TaskCreateResult where
  | badRequest (missing : List FieldName)
  | created (t : NewTask)
deriving DecidableEq, Repr

def createTask (r : TaskCreateReq) : TaskCreateResult :=
  if 0 < (missingFields r).length then
    TaskCreateResult.badRequest (missingFields r)
  else
    TaskCreateResult.created (saveTask (buildTask r))

def isBadRequest : TaskCreateResult → Bool
  | TaskCreateResult.badRequest _ => true
  | TaskCreateResult.created _ => false

/-- Claim C5 (counterexample): a request whose `location` body field is
absent but which carries `city` and `region` is NOT rejected — the handler
validates the derived `location || city + ", " + region` value, so the
claimed 400 for a missing `location` field does not occur and a task is
created. -/
theorem C5_counterexample :
    isBadRequest (createTask
      ⟨some [97], none, some (CatValue.str [98]), some [99], some [100],
        some [101], none, none, some [102], some [103], none, none⟩) = false := by
  decide

/-- Claim C5 (corrected): whenever any entry of the handler's
`requiredFields` object is absent or trims to empty — where the `location`
entry is the EFFECTIVE location (the raw `location` body field, or
`city + ", " + region` when both are present) — the response is 400
carrying exactly the missing keys in object order, and no task is created. -/
theorem C5_corrected (r : TaskCreateReq) (h : missingFields r ≠ []) :
    createTask r = TaskCreateResult.badRequest (missingFields r) ∧
    (∀ f : FieldName, f ∈ missingFields r ↔ fieldMissing r f = true) ∧
    (∀ t : NewTask, createTask r ≠ TaskCreateResult.created t) := by
  have hpos : 0 < (missingFields r).length := List.length_pos.mpr h
  refine ⟨?_, ?_, ?_⟩
  · unfold createTask
    simp [hpos]
  · intro f
    unfold missingFields
    rw [List.mem_filter]
    have hall : f ∈ allFieldNames := by
      cases f <;> simp [allFieldNames]
    simp [hall]
  · intro t
    unfold createTask
    simp [hpos]

/-- Claim C5 (witness for the corrected theorem): the empty request is
rejected with all six keys listed. -/
theorem C5_corrected_witness :
    createTask ⟨none, none, none, none, none, none, none, none, none, none, none, none⟩
        = TaskCreateResult.badRequest
            (missingFields ⟨none, none, none, none, none, none, none, none, none, none, none, none⟩) ∧
    (∀ f : FieldName,
        f ∈ missingFields ⟨none, none, none, none, none, none, none, none, none, none, none, none⟩
          ↔ fieldMissing ⟨none, none, none, none, none, none, none, none, none, none, none, none⟩ f = true) ∧
    (∀ t : NewTask,
        createTask ⟨none, none, none, none, none, none, none, none, none, none, none, none⟩
          ≠ TaskCreateResult.created t) :=
  C5_corrected ⟨none, none, none, none, none, none, none, none, none, none, none, none⟩
    (by decide)

/-- Claim C9 (confirmed): with no `mainCategory` in the body, the created
task's `mainCategory` is `category[0]` evaluated on the RAW submitted
category — the first element when it arrived as an array, the first
character when it arrived as a single string — and the model pre-save hook
independently sets a falsy `mainCategory` to the first element of the
category array whenever the array is non-empty. -/
theorem C9_mainCategory (r : TaskCreateReq) (cv : CatValue)
    (hmc : r.mainCategory = none) (hcat : r.category = some cv)
    (hok : missingFields r = []) :
    createTask r = TaskCreateResult.created (saveTask (buildTask r)) ∧
    (∀ l : List JStr, cv = CatValue.arr l →
      (saveTask (buildTask r)).mainCategory = l.head?) ∧
    (∀ (c : Nat) (rest : JStr), cv = CatValue.str (c :: rest) →
      (saveTask (buildTask r)).mainCategory = some [c]) ∧
    (∀ t : NewTask, truthyStr t.mainCategory = false → t.category ≠ [] →
      (saveTask t).mainCategory = t.category.head?) := by
  have hlen : ¬ 0 < (missingFields r).length := by
    rw [hok]
    simp
  refine ⟨?_, ?_, ?_, ?_⟩
  · unfold createTask
    simp [hlen]
  · intro l hl
    subst hl
    unfold saveTask buildTask
    rw [hmc, hcat]
    cases l with
    | nil => simp [truthyStr, catIndex0, categoriesOf]
    | cons l0 ls =>
      by_cases h0 : l0 = []
      · subst h0
        simp [truthyStr, catIndex0, categoriesOf]
      · simp [truthyStr, catIndex0, categoriesOf, h0]
  · intro c rest hs
    subst hs
    unfold saveTask buildTask
    rw [hmc, hcat]
    simp [truthyStr, catIndex0, categoriesOf]
  · intro t hfalsy hne
    unfold saveTask
    have hlen2 : 0 < t.category.length := List.length_pos.mpr hne
    simp [hfalsy, hlen2]

/-- Claim C9 (witness): a request without `mainCategory` whose category
arrived as the array ["b", "c"] stores mainCategory "b"; the same theorem
instantiated also covers the hook clause. -/
theorem C9_mainCategory_witness :
    createTask ⟨some [97], none, some (CatValue.arr [[98], [99]]), some [100],
        none, none, none, some [101], some [102], some [103], none, none⟩
      = TaskCreateResult.created (saveTask (buildTask
          ⟨some [97], none, some (CatValue.arr [[98], [99]]), some [100],
            none, none, none, some [101], some [102], some [103], none, none⟩)) ∧
    (∀ l : List JStr, CatValue.arr [[98], [99]] = CatValue.arr l →
      (saveTask (buildTask
        ⟨some [97], none, some (CatValue.arr [[98], [99]]), some [100],
          none, none, none, some [101], some [102], some [103], none, none⟩)).mainCategory
        = l.head?) ∧
    (∀ (c : Nat) (rest : JStr), CatValue.arr [[98], [99]] = CatValue.str (c :: rest) →
      (saveTask (buildTask
        ⟨some [97], none, some (CatValue.arr [[98], [99]]), some [100],
          none, none, none, some [101], some [102], some [103], none, none⟩)).mainCategory
        = some [c]) ∧
    (∀ t : NewTask, truthyStr t.mainCategory = false → t.category ≠ [] →
      (saveTask t).mainCategory = t.category.head?) :=
  C9_mainCategory
    ⟨some [97], none, some (CatValue.arr [[98], [99]]), some [100],
      none, none, none, some [101], some [102], some [103], none, none⟩
    (CatValue.arr [[98], [99]]) rfl rfl (by decide)

/- ------------------------------------------------------------------ -/
/- Task status update (claim C7).                                      -/
/- ------------------------------------------------------------------ -/

/-- The Task fields read and written by `PUT /tasks/:id/status`. -/
structure TaskDoc where
  clientId : Nat
  status : JStr
  completedAt : Option Nat
deriving DecidableEq, Repr

/-- Outcome of `PUT /tasks/:id/status` for a task that exists (the 404
branch is before any state access and out of scope here). -/
inductive StatusResult where
  | badRequest
  | forbidden
  | ok (t : TaskDoc)
deriving DecidableEq, Repr

/-- `const validStatuses = ['open', 'completed']`. -/
def validStatuses : List JStr := [js ("open"), js ("completed")]

/-- `PUT /tasks/:id/status` (src/routes/taskRoutes.js): reject unknown
status values with 400 before anything else; reject non-owners with 403;
otherwise set the status, stamping `completedAt = Date.now()` on
"completed" and clearing it on "open", and save. -/
def updateTaskStatus (t : TaskDoc) (userId : Nat) (status : JStr) (now : Nat) :
    StatusResult × TaskDoc :=
  if ¬ (validStatuses.contains status) then (StatusResult.badRequest, t)
  else if t.clientId ≠ userId then (StatusResult.forbidden, t)
  else
    let t1 := { t with status := status }
    let t2 :=
      if status == js ("completed") then { t1 with completedAt := some now }
      else if status == js ("open") then { t1 with completedAt := none }
      else t1
    (StatusResult.ok t2, t2)

/-- Claim C7 (confirmed): for the task's owner, body status "completed"
sets the status and stamps `completedAt` with the current time, body
status "open" sets the status and clears `completedAt`, and any other
status value yields 400 with the task untouched. -/
theorem C7_status_update (t : TaskDoc) (u : Nat) (s : JStr) (now : Nat)
    (howner : t.clientId = u) :
    (s = js ("completed") → updateTaskStatus t u s now
        = (StatusResult.ok { t with status := js ("completed"), completedAt := some now },
           { t with status := js ("completed"), completedAt := some now })) ∧
    (s = js ("open") → updateTaskStatus t u s now
        = (StatusResult.ok { t with status := js ("open"), completedAt := none },
           { t with status := js ("open"), completedAt := none })) ∧
    (s ≠ js ("open") → s ≠ js ("completed") →
      updateTaskStatus t u s now = (StatusResult.badRequest, t)) := by
  refine ⟨?_, ?_, ?_⟩
  · intro hs
    subst hs
    unfold updateTaskStatus
    simp [validStatuses, howner]
  · intro hs
    subst hs
    unfold updateTaskStatus
    simp [validStatuses, howner]
    decide
  · intro h1 h2
    have hmem : s ∉ validStatuses := by
      intro hmem
      unfold validStatuses at hmem
      rcases List.mem_cons.mp hmem with h | h
      · exact h1 h
      · rcases List.mem_cons.mp h with h' | h'
        · exact h2 h'
        · exact absurd h' (List.not_mem_nil s)
    have hc : validStatuses.contains s = false := by
      rw [Bool.eq_false_iff]
      intro hcon
      simp at hcon
      exact hmem hcon
    unfold updateTaskStatus
    rw [hc]
    simp

/-- Claim C7 (witness): a concrete owner-issued update to "completed",
one back to "open", and a rejected "paused". -/
theorem C7_status_update_witness :
    (updateTaskStatus ⟨5, js ("open"), none⟩ 5 (js ("completed")) 1000
        = (StatusResult.ok { clientId := 5, status := js ("completed"), completedAt := some 1000 },
           { clientId := 5, status := js ("completed"), completedAt := some 1000 })) ∧
    (updateTaskStatus ⟨5, js ("completed"), some 7⟩ 5 (js ("open")) 1000
        = (StatusResult.ok { clientId := 5, status := js ("open"), completedAt := none },
           { clientId := 5, status := js ("open"), completedAt := none })) ∧
    (updateTaskStatus ⟨5, js ("open"), none⟩ 5 (js ("paused")) 1000
        = (StatusResult.badRequest, ⟨5, js ("open"), none⟩)) :=
  ⟨(C7_status_update ⟨5, js ("open"), none⟩ 5 (js ("completed")) 1000 rfl).1 rfl,
   (C7_status_update ⟨5, js ("completed"), some 7⟩ 5 (js ("open")) 1000 rfl).2.1 rfl,
   (C7_status_update ⟨5, js ("open"), none⟩ 5 (js ("paused")) 1000 rfl).2.2
      (by decide) (by decide)⟩

/- ------------------------------------------------------------------ -/
/- Reviews and rating (claim C8).                                      -/
/- ------------------------------------------------------------------ -/

/-- One embedded review (src/models/Providers.js `reviews` subdocument). -/
structure Review where
  userId : Nat
  name : JStr
  rating : ℚ
  comment : JStr
  date : Nat
deriving DecidableEq, Repr

/-- The Provider fields the review endpoint touches. -/
structure ProviderReviews where
  reviews : List Review
  averageRating : ℚ
deriving DecidableEq, Repr

/-- `parseFloat(x.toFixed(1))`: rounding to one decimal place; the
binary-float detour of `toFixed` is abstracted to exact rational
rounding. -/
def round1 (q : ℚ) : ℚ := (round (q * 10) : ℚ) / 10

/-- `providerSchema.methods.calculateRating`: 0 for no reviews, otherwise
the mean of all ratings rounded to one decimal. -/
def calculateRating (reviews : List Review) : ℚ :=
  if reviews.length = 0 then 0
  else round1 ((reviews.map (fun rv => rv.rating)).sum / reviews.length)

/-- Outcome of `POST /providers/:id/review` for an existing provider. -/
inductive ReviewResult where
  | alreadyReviewed
  | added
deriving DecidableEq, Repr

/-- `POST /providers/:id/review` (src/routes/providerRoutes.js): linear
scan for an existing review by the same user; if found, answer
"You already reviewed this provider" without touching state; otherwise
push the new review and recompute `averageRating`. -/
def addReview (p : ProviderReviews) (userId : Nat) (name : JStr)
    (rating : ℚ) (comment : JStr) (now : Nat) :
    ReviewResult × ProviderReviews :=
  if p.reviews.any (fun rv => rv.userId == userId) then
    (ReviewResult.alreadyReviewed, p)
  else
    let rv : Review := ⟨userId, name, rating, comment, now⟩
    let revs := p.reviews ++ [rv]
    (ReviewResult.added, { p with reviews := revs, averageRating := calculateRating revs })

/-- Claim C8 (confirmed): a user with an existing review on the provider
gets the "already reviewed" answer and the reviews and averageRating are
untouched; a first-time reviewer appends exactly one review and
`averageRating` is recomputed over the extended list. -/
theorem C8_one_review_per_user (p : ProviderReviews) (u : Nat) (name : JStr)
    (rating : ℚ) (comment : JStr) (now : Nat) :
    ((∃ rv ∈ p.reviews, rv.userId = u) →
      addReview p u name rating comment now = (ReviewResult.alreadyReviewed, p)) ∧
    ((¬ ∃ rv ∈ p.reviews, rv.userId = u) →
      addReview p u name rating comment now
        = (ReviewResult.added,
           { p with reviews := p.reviews ++ [⟨u, name, rating, comment, now⟩],
                    averageRating :=
                      calculateRating (p.reviews ++ [⟨u, name, rating, comment, now⟩]) })) := by
  constructor
  · intro hex
    have hany : p.reviews.any (fun rv => rv.userId == u) = true := by
      rw [List.any_eq_true]
      obtain ⟨rv, hmem, heq⟩ := hex
      exact ⟨rv, hmem, by simp [heq]⟩
    unfold addReview
    simp [hany]
  · intro hnex
    have hany : p.reviews.any (fun rv => rv.userId == u) = false := by
      rw [Bool.eq_false_iff]
      intro hc
      rw [List.any_eq_true] at hc
      obtain ⟨rv, hmem, heq⟩ := hc
      exact hnex ⟨rv, hmem, by simpa using heq⟩
    unfold addReview
    simp [hany]

/-- Claim C8 (witness): on a provider with one review by user 1, a second
attempt by user 1 is rejected unchanged, and a first review by user 2 is
appended with the average recomputed. -/
theorem C8_one_review_per_user_witness :
    (addReview ⟨[⟨1, [97], 5, [99], 10⟩], 5⟩ 1 [98] 3 [100] 20
        = (ReviewResult.alreadyReviewed, ⟨[⟨1, [97], 5, [99], 10⟩], 5⟩)) ∧
    (addReview ⟨[⟨1, [97], 5, [99], 10⟩], 5⟩ 2 [98] 3 [100] 20
        = (ReviewResult.added,
           { reviews := [⟨1, [97], 5, [99], 10⟩] ++ [⟨2, [98], 3, [100], 20⟩],
             averageRating :=
               calculateRating ([⟨1, [97], 5, [99], 10⟩] ++ [⟨2, [98], 3, [100], 20⟩]) })) :=
  ⟨(C8_one_review_per_user ⟨[⟨1, [97], 5, [99], 10⟩], 5⟩ 1 [98] 3 [100] 20).1
      (by decide),
   (C8_one_review_per_user ⟨[⟨1, [97], 5, [99], 10⟩], 5⟩ 2 [98] 3 [100] 20).2
      (by decide)⟩

/- ------------------------------------------------------------------ -/
/- Sample-work deletion (claim C10).                                   -/
/- ------------------------------------------------------------------ -/

/-- Decimal/hex digit value; 99 is a sentinel above every base. -/
def digitVal (c : Nat) : Nat :=
  if 48 ≤ c ∧ c ≤ 57 then c - 48
  else if 65 ≤ c ∧ c ≤ 70 then c - 55
  else if 97 ≤ c ∧ c ≤ 102 then c - 87
  else 99

/-- JavaScript `parseInt(s)` (radix omitted): skip whitespace, optional
sign, optional `0x`/`0X` prefix switching to base 16, then the longest
digit prefix; `none` models `NaN`. -/
def parseIntJS (s : JStr) : Option Int :=
  let s1 := s.dropWhile isWS
  let sign : Int := match s1 with | 45 :: _ => -1 | _ => 1
  let s2 := match s1 with | 45 :: r => r | 43 :: r => r | _ => s1
  let pair : Nat × JStr :=
    match s2 with
    | 48 :: 120 :: r => (16, r)
    | 48 :: 88 :: r => (16, r)
    | _ => (10, s2)
  let ds := pair.2.takeWhile (fun c => digitVal c < pair.1)
  if ds.isEmpty then none
  else some (sign * (ds.foldl (fun acc c => acc * pair.1 + digitVal c) 0 : Nat))

/-- Outcome of `DELETE /providers/sample/:index` for an existing provider
(filesystem deletion of the removed file is best-effort and out of
scope). -/
inductive DeleteSampleResult where
  | badRequest
  | ok
deriving DecidableEq, Repr

/-- `DELETE /providers/sample/:index` (src/routes/providerRoutes.js):
`parseInt` the path parameter; `NaN`, negative, or out-of-range indices
give 400 and leave the gallery alone; otherwise `splice(index, 1)`. -/
def deleteSample (sampleWork : List JStr) (idxStr : JStr) :
    DeleteSampleResult × List JStr :=
  match parseIntJS idxStr with
  | none => (DeleteSampleResult.badRequest, sampleWork)
  | some i =>
    if i < 0 ∨ (sampleWork.length : Int) ≤ i then
      (DeleteSampleResult.badRequest, sampleWork)
    else (DeleteSampleResult.ok, sampleWork.eraseIdx i.toNat)

/-- Claim C10 (confirmed): an index parameter that parses to NaN, is
negative, or is at least the gallery length yields 400 with the gallery
unchanged; an in-range index removes exactly the entry at that position —
the result is the prefix before it followed by the suffix after it, one
entry shorter. -/
theorem C10_delete_sample_guard (sw : List JStr) (s : JStr) :
    (parseIntJS s = none → deleteSample sw s = (DeleteSampleResult.badRequest, sw)) ∧
    (∀ i : Int, parseIntJS s = some i → i < 0 ∨ (sw.length : Int) ≤ i →
      deleteSample sw s = (DeleteSampleResult.badRequest, sw)) ∧
    (∀ i : Int, parseIntJS s = some i → 0 ≤ i → i < (sw.length : Int) →
      (deleteSample sw s).1 = DeleteSampleResult.ok ∧
      (deleteSample sw s).2 = sw.take i.toNat ++ sw.drop (i.toNat + 1) ∧
      (deleteSample sw s).2.length = sw.length - 1) := by
  refine ⟨?_, ?_, ?_⟩
  · intro hn
    unfold deleteSample
    rw [hn]
  · intro i hi hout
    unfold deleteSample
    rw [hi]
    simp [hout]
  · intro i hi h0 hlt
    have hrange : ¬ (i < 0 ∨ (sw.length : Int) ≤ i) := by omega
    have hnat : i.toNat < sw.length := by omega
    unfold deleteSample
    rw [hi]
    dsimp only
    rw [if_neg hrange]
    refine ⟨rfl, ?_, ?_⟩
    · exact List.eraseIdx_eq_take_drop_succ sw i.toNat
    · exact List.length_eraseIdx_of_lt hnat

/-- Claim C10 (witness): with a three-entry gallery, parameter "abc" is
rejected, "-1" and "3" are rejected, and "1" removes exactly the middle
entry. -/
theorem C10_delete_sample_guard_witness :
    (deleteSample [[5], [6], [7]] (js ("abc")) = (DeleteSampleResult.badRequest, [[5], [6], [7]])) ∧
    (deleteSample [[5], [6], [7]] (js ("-1")) = (DeleteSampleResult.badRequest, [[5], [6], [7]])) ∧
    (deleteSample [[5], [6], [7]] (js ("3")) = (DeleteSampleResult.badRequest, [[5], [6], [7]])) ∧
    ((deleteSample [[5], [6], [7]] (js ("1"))).1 = DeleteSampleResult.ok ∧
      (deleteSample [[5], [6], [7]] (js ("1"))).2
        = ([[5], [6], [7]] : List JStr).take 1 ++ ([[5], [6], [7]] : List JStr).drop 2 ∧
      (deleteSample [[5], [6], [7]] (js ("1"))).2.length = 3 - 1) :=
  ⟨(C10_delete_sample_guard [[5], [6], [7]] (js ("abc"))).1 (by decide),
   (C10_delete_sample_guard [[5], [6], [7]] (js ("-1"))).2.1 (-1) (by decide) (by decide),
   (C10_delete_sample_guard [[5], [6], [7]] (js ("3"))).2.1 3 (by decide) (by decide),
   by
     have h := (C10_delete_sample_guard [[5], [6], [7]] (js ("1"))).2.2 1
       (by decide) (by decide) (by decide)
     simpa using h⟩

/- ------------------------------------------------------------------ -/
/- Provider region-category listing (claim C6).                        -/
/- ------------------------------------------------------------------ -/

/-- Matching a string against `new RegExp('^' + pat + '$', 'i')` where
`pat` is one of the table's sub-category strings.  Over the alphabet that
actually occurs there (letters, digits, space, `&`, comma, hyphen, slash,
right single quote, `(`, `)`, `.`), the exact regex semantics are: `(`
and `)` open and close a plain group and match no character themselves,
`.` matches any single character, and every other unit matches itself
case-insensitively. -/
def patMatch : JStr → JStr → Bool
  | [], s => s.isEmpty
  | c :: p, s =>
    if c = 40 ∨ c = 41 then patMatch p s
    else
      match s with
      | [] => false
      | d :: s2 =>
        if c = 46 then patMatch p s2
        else toLowerCode c == toLowerCode d && patMatch p s2

/-- The hard-coded `mainCategoryToSubCategories` lookup table of the
`GET /providers/region-category` handler (src/routes/providerRoutes.js),
transcribed entry for entry. -/
def mainCategoryToSubCategories : List (JStr × List JStr) := [
  (js ("Informal & On-Demand Services"),
   [js ("Kiosk Repairs"),
    js ("Container Shop Fabrication"),
    js ("Sign Writing"),
    js ("Billboard Installation"),
    js ("POP Installation"),
    js ("Mobile Phone Charging Services"),
    js ("Satellite Dish Installation (DSTV, GOTV)"),
    js ("Water Vendor (Private Supply)")
   ]),
  (js ("Plumbing & Water Services"),
   [js ("Plumbing Installation & Repairs"),
    js ("Pipe Leakage Fixing"),
    js ("Water Tank Installation"),
    js ("Borehole Drilling & Maintenance"),
    js ("Pump Installation & Repairs"),
    js ("Bathroom & Toilet Installation"),
    js ("Septic Tank Construction & Repairs"),
    js ("Drainage Work"),
    js ("Water Heater Installation")
   ]),
  (js ("Construction & Engineering"),
   [js ("Aluminum & Metal Fabrication"),
    js ("Building Construction"),
    js ("Carpenter"),
    js ("Carpentry & Woodworks"),
    js ("Civil Works & Infrastructure"),
    js ("Electrical Installation"),
    js ("Electrician"),
    js ("Heavy Equipment Hiring"),
    js ("Mason"),
    js ("Masonry & Block Works"),
    js ("Painter"),
    js ("Painting & Finishing"),
    js ("Plumber"),
    js ("Plumbing & Water Systems"),
    js ("POP installer"),
    js ("Professional & Technical Services"),
    js ("Roofing Services"),
    js ("Solar Installation"),
    js ("Steel bender"),
    js ("Tiler"),
    js ("Tiling & Flooring"),
    js ("Welder")
   ]),
  (js ("ICT & Digital Services"),
   [js ("Cloud & Hosting Services"),
    js ("Digital Marketing & Online Presence"),
    js ("E-commerce & Online Services"),
    js ("Emerging Technologies"),
    js ("Graphic & Creative Design"),
    js ("IT Support & Maintenance"),
    js ("IT Training & Consulting"),
    js ("Mobile & App Development"),
    js ("Networking & Cybersecurity"),
    js ("Software & Application Services"),
    js ("Video, Photography & Multimedia"),
    js ("Web Development & Design"),
    js ("Phone Repairs"),
    js ("Laptop Repairs"),
    js ("Computer Servicing"),
    js ("Network Installation"),
    js ("Wi-Fi Setup"),
    js ("Printer Repairs"),
    js ("Software Installation"),
    js ("Website Development"),
    js ("App Development"),
    js ("Graphic Design"),
    js ("Digital Marketing"),
    js ("IT Support Services")
   ]),
  (js ("Electrical & Electronics"),
   [js ("Electrical Wiring (Residential & Commercial)"),
    js ("Meter Installation & Troubleshooting"),
    js ("Fault Detection & Repairs"),
    js ("Generator Repairs & Servicing"),
    js ("Inverter & UPS Installation"),
    js ("Solar Panel Installation & Maintenance"),
    js ("CCTV Installation"),
    js ("Intercom Installation"),
    js ("Electric Gate Installation"),
    js ("Appliance Repairs (Iron, Kettle, Fan, etc.)")
   ]),
  (js ("Home & Building Services"),
   [js ("Masonry / Block Laying"),
    js ("Carpentry & Woodwork"),
    js ("Roofing (Aluminium, Roofing Sheets)"),
    js ("Tiling (Floor & Wall)"),
    js ("Painting & Decoration"),
    js ("Plastering & Screeding"),
    js ("Ceiling Installation (POP, PVC, Gypsum)"),
    js ("Steel Bending & Iron Work"),
    js ("Welding & Fabrication"),
    js ("Window & Door Installation"),
    js ("Fence Wall Construction"),
    js ("Paving & Interlocking Blocks"),
    js ("General Handyman Services")
   ]),
  (js ("Cleaning & Maintenance"),
   [js ("Residential Cleaning"),
    js ("Office Cleaning"),
    js ("Post-Construction Cleaning"),
    js ("Deep Cleaning"),
    js ("Carpet & Sofa Cleaning"),
    js ("Window Cleaning"),
    js ("Pest Control & Fumigation"),
    js ("Waste Collection (Private)")
   ]),
  (js ("Security & Safety"),
   [js ("Cybersecurity & Digital Safety"),
    js ("Equipment & Support Services"),
    js ("Event & Crowd Management"),
    js ("Fire Safety & Protection"),
    js ("Personal & Executive Protection"),
    js ("Private Security Services"),
    js ("Safety Training & Compliance"),
    js ("Surveillance & Monitoring"),
    js ("Security Door Installation"),
    js ("Burglar Proof Installation"),
    js ("Electric Fence Installation"),
    js ("CCTV & Alarm Systems"),
    js ("Fire Extinguisher Installation"),
    js ("Smoke Detector Installation")
   ]),
  (js ("Transport & Delivery"),
   [js ("Food Delivery"),
    js ("Freight & Industrial Transport"),
    js ("Goods Delivery & Logistics"),
    js ("Moving & Relocation Services"),
    js ("Passenger Transport"),
    js ("Specialized Transport Services"),
    js ("Vehicle Rental & Leasing"),
    js ("Vehicle Support Services")
   ]),
  (js ("Agriculture & Farming Services"),
   [js ("Agribusiness & Consultancy"),
    js ("Agro-Equipment & Machinery Services"),
    js ("Agro-Input Supply"),
    js ("Agro-Processing Services"),
    js ("Aquaculture & Fisheries"),
    js ("Crop Production Services"),
    js ("Landscaping & Horticulture"),
    js ("Livestock Farming Services"),
    js ("Storage & Logistics"),
    js ("Sustainable & Organic Farming"),
    js ("Veterinary & Animal Health Services")
   ]),
  (js ("Air Conditioning & Cooling"),
   [js ("Air Conditioner Installation"),
    js ("AC Servicing & Repairs"),
    js ("Refrigerator Repairs"),
    js ("Freezer Repairs"),
    js ("Cold Room Installation & Maintenance")
   ]),
  (js ("Auto & Transport Services"),
   [js ("Auto Mechanics"),
    js ("Auto Electricians"),
    js ("Car AC Repairs"),
    js ("Spraying & Panel Beating"),
    js ("Vehicle Diagnostics"),
    js ("Motorcycle Repairs"),
    js ("Mobile Mechanic Services"),
    js ("Towing Services")
   ]),
  (js ("Beauty & Wellness"),
   [js ("Beauty Products"),
    js ("Cosmetic Procedures"),
    js ("Fitness & Physical Wellness"),
    js ("Hair Services"),
    js ("Makeup & Grooming"),
    js ("Nail Services"),
    js ("Nutrition & Lifestyle"),
    js ("Skincare & Aesthetics"),
    js ("Spa & Relaxation")
   ]),
  (js ("Business & Professional Services"),
   [js ("Accounting & Bookkeeping"),
    js ("Tax Consulting"),
    js ("Business Registration Assistance"),
    js ("Legal Services"),
    js ("HR Services"),
    js ("Marketing & Sales Agents"),
    js ("Procurement Agents")
   ]),
  (js ("Domestic & Household Support"),
   [js ("Cooking & Kitchen Support"),
    js ("Domestic Help / House Help"),
    js ("Elderly & Home Care Support"),
    js ("Errand & Personal Assistance"),
    js ("Gardening & Outdoor Care"),
    js ("Home Maintenance Support"),
    js ("Housekeeping & Cleaning"),
    js ("Laundry Services"),
    js ("Moving & Relocation Support"),
    js ("Nanny & Childcare Services"),
    js ("Pest Control & Fumigation"),
    js ("Security & Household Protection")
   ]),
  (js ("Education & Training"),
   [js ("Home Tutors"),
    js ("ICT Training"),
    js ("Vocational Training"),
    js ("Driving Instructors"),
    js ("Music Lessons"),
    js ("Exam Coaching (BECE, WASSCE)")
   ]),
  (js ("Entertainment Services"),
   [js ("Children’s Entertainment"),
    js ("Comedy & Public Speaking"),
    js ("Content Creation & Digital Media"),
    js ("Cultural & Traditional Entertainment"),
    js ("Dance & Performance Arts"),
    js ("Event Entertainment"),
    js ("Event Production & Rentals"),
    js ("Fashion & Styling"),
    js ("Film & Media Production"),
    js ("Graphic Design & Visual Arts"),
    js ("Makeup & Creative Beauty"),
    js ("Music & Live Performance"),
    js ("Photography & Videography")
   ]),
  (js ("Event Services"),
   [js ("Catering & Food Services"),
    js ("Children’s Party Services"),
    js ("Church events"),
    js ("Corporate events"),
    js ("Decoration Services"),
    js ("Entertainment"),
    js ("Event Planning & Coordination"),
    js ("Event Setup & Rentals"),
    js ("Family Events"),
    js ("Fashion & Beauty"),
    js ("Funeral specialist"),
    js ("Graduation Events"),
    js ("Outdoor events"),
    js ("Photography & Videography"),
    js ("Printing & Branding"),
    js ("Religious & Traditional Event Support"),
    js ("Security & Crowd Control"),
    js ("Sound, Lighting & Technical"),
    js ("Transportation Services"),
    js ("Wedding specialist")
   ]),
  (js ("Event & Media Services"),
   [js ("Event Setup (Canopies, Chairs, Tables)"),
    js ("Sound System Services"),
    js ("MC Services"),
    js ("DJ Services"),
    js ("Photography"),
    js ("Videography"),
    js ("Decoration Services"),
    js ("Stage Lighting")
   ]),
  (js ("Fashion & Personal Services"),
   [js ("Tailoring & Dressmaking"),
    js ("Fashion Design"),
    js ("Shoe Making & Repairs"),
    js ("Bag Making & Repairs"),
    js ("Hairdressing"),
    js ("Barbering"),
    js ("Makeup Artistry"),
    js ("Nail Technology")
   ]),
  (js ("Financial Services"),
   [js ("Accounting & Bookkeeping"),
    js ("Auditing & Assurance"),
    js ("Banking & Microfinance Services"),
    js ("Business Advisory & Consultancy"),
    js ("Cooperative & Savings Support"),
    js ("FinTech & Digital Financial Services"),
    js ("Forex & Remittance Services"),
    js ("Insurance Services"),
    js ("Investment & Wealth Mgt"),
    js ("Loan & Credit Services"),
    js ("Pension & SSNIT Services"),
    js ("Tax Services")
   ]),
  (js ("Food & Catering Services"),
   [js ("Bakery & Confectionery"),
    js ("Beverage & Drink Services"),
    js ("Continental & Int Cuisine"),
    js ("Corporate & Institutional Catering"),
    js ("Desserts & Snacks"),
    js ("Equipment & Support Services"),
    js ("Event Catering"),
    js ("Food Delivery"),
    js ("Food Trucks & Mobile Catering"),
    js ("Meal Prep & Daily Food Services"),
    js ("Mobile / on-site service"),
    js ("Specialty Services"),
    js ("Traditional cuisine"),
    js ("Traditional Ghanaian Cuisine")
   ]),
  (js ("Furniture & Interior Services"),
   [js ("Furniture Making"),
    js ("Furniture Repairs"),
    js ("Upholstery"),
    js ("Cabinet & Kitchen Unit Installation"),
    js ("Wardrobe Installation"),
    js ("TV Mounting"),
    js ("Interior Decoration"),
    js ("Blinds & Curtain Installation")
   ]),
  (js ("Health & Care Services (Non-Clinical)"),
   [js ("Home Care Assistants"),
    js ("Elderly Care"),
    js ("Childcare / Babysitting"),
    js ("Physiotherapy Assistants"),
    js ("Fitness Trainers")
   ]),
  (js ("Hospitality & Accommodation Support"),
   [js ("Event & Conference Services"),
    js ("Food & Beverage Services"),
    js ("Guesthouses & Hostels"),
    js ("Hospitality Staffing Services"),
    js ("Hotels & Lodges"),
    js ("Housekeeping & Support Services"),
    js ("Resorts & Retreats"),
    js ("Short-Term Rentals"),
    js ("Specialty & Niche Services"),
    js ("Travel & Concierge Services")
   ]),
  (js ("Industrial & Heavy Services"),
   [js ("Industrial Cleaning & Waste Mgt"),
    js ("Industrial Electrical & Mechanical Services"),
    js ("Industrial IT & Automation"),
    js ("Industrial Safety & Compliance"),
    js ("Logistics & Heavy Transport"),
    js ("Machinery & Equipment Operator"),
    js ("Machinery & Equipment Services"),
    js ("Manufacturing & Fabrication"),
    js ("Mining & Quarry Services"),
    js ("Specialized Industrial Services"),
    js ("Tractor Operator"),
    js ("Construction & Civil Heavy Works")
   ]),
  (js ("Manufacturing"),
   [js ("Chemical & Pharmaceutical"),
    js ("Construction Materials"),
    js ("Electrical & Energy"),
    js ("Food & Beverage"),
    js ("Industrial / Large-Scale"),
    js ("Metal & Fabrication"),
    js ("Plastic & Packaging"),
    js ("Printing & Publishing"),
    js ("Small-Scale"),
    js ("Textiles & Garments")
   ]),
  (js ("Moving & Logistics"),
   [js ("House Moving Services"),
    js ("Office Relocation"),
    js ("Loaders & Packers"),
    js ("Furniture Assembly & Disassembly"),
    js ("Courier Services"),
    js ("Errand Services")
   ]),
  (js ("Outdoor & Landscaping"),
   [js ("Landscaping & Gardening"),
    js ("Lawn Mowing"),
    js ("Tree Cutting & Trimming"),
    js ("Compound Cleaning"),
    js ("Weed Clearing"),
    js ("Watering System Installation")
   ]),
  (js ("Pet & Animal Services"),
   [js ("Aquaculture & Fisheries"),
    js ("Livestock Services"),
    js ("Pet Adoption & Rescue"),
    js ("Pet Care & Grooming"),
    js ("Pet Sitting & Boarding"),
    js ("Pet Supplies & Accessories"),
    js ("Pet Training & Behavior"),
    js ("Training & Education"),
    js ("Veterinary & Animal Health")
   ]),
  (js ("Printing & Branding Services"),
   [js ("Branding Services"),
    js ("Graphic Design"),
    js ("Printing Equipment Services"),
    js ("Printing Services"),
    js ("Promotional & Marketing Materials"),
    js ("Specialty & Custom Printing"),
    js ("Stationery & Office Printing")
   ]),
  (js ("Real Estate & Property Services"),
   [js ("Facility & Maintenance Services"),
    js ("Interior Design & Renovation Services"),
    js ("Land & Legal Services"),
    js ("Property Management"),
    js ("Property Marketing & Promotion"),
    js ("Property Rental & Leasing"),
    js ("Property Sales & Buying Services"),
    js ("Real Estate Development"),
    js ("Real Estate Investment & Advisory")
   ]),
  (js ("Repair & Technical Services"),
   [js ("Automotive & Vehicle Services"),
    js ("Electronics & Electrical Repair"),
    js ("Furniture & Woodwork Repair"),
    js ("Home & Office Maintenance"),
    js ("HVAC & Cooling Systems"),
    js ("Mechanical & Industrial Repair"),
    js ("Miscellaneous Technical Services"),
    js ("Plumbing & Water Systems Repair")
   ]),
  (js ("Travel & Tourism"),
   [js ("Accommodation & Lodging Support"),
    js ("Adventure & Recreational Activities"),
    js ("Culinary & Experiential Tourism"),
    js ("Event & Festival Tourism"),
    js ("Tour Guides & Local Experiences"),
    js ("Tour Operators & Travel Agencies"),
    js ("Transportation & Transfers"),
    js ("Travel Documentation & Support"),
    js ("Travel Photography & Videography")
   ]),
  (js ("Water & Environmental Services"),
   [js ("Cleaning & Facility Hygiene"),
    js ("Drainage & Flood Control"),
    js ("Environmental & Ecological Services"),
    js ("Pest Control & Vector Management"),
    js ("Renewable & Sustainable Services"),
    js ("Waste Management & Sanitation"),
    js ("Water Supply & Management"),
    js ("Water Testing & Quality Control")
   ])
]

/-- JS property lookup `mainCategoryToSubCategories[category]`:
exact, case-sensitive key comparison. -/
def lookupMainCategory (cat : JStr) : Option (List JStr) :=
  (mainCategoryToSubCategories.find? (fun e => e.1 == cat)).map (fun e => e.2)

/-- The provider fields the region-category query reads. -/
structure ProviderRC where
  region : JStr
  category : List JStr
deriving DecidableEq, Repr

/-- The category part of the handler's query: for a known main category,
`{category: {$in: subCategoryPatterns}}` — some element of the provider's
category array matches some sub-category regex; for an unknown one, a
single pattern built from the query itself. -/
def providerCategoryMatches (catQ : JStr) (cats : List JStr) : Bool :=
  match lookupMainCategory catQ with
  | some subs => cats.any (fun c => subs.any (fun sub => patMatch sub c))
  | none => cats.any (fun c => patMatch catQ c)

/-- `GET /providers/region-category` (src/routes/providerRoutes.js):
the providers passing both the region filter (case-insensitive
whole-string) and the category filter. -/
def regionCategoryResults (ps : List ProviderRC) (regionQ catQ : JStr) :
    List ProviderRC :=
  ps.filter (fun p => ciEq p.region regionQ && providerCategoryMatches catQ p.category)

/-- The result set the claim describes (spec wording): providers matching
the region whose category array contains at least one of the registered
sub-category strings, compared case-insensitively as whole strings. -/
def claimedResults (ps : List ProviderRC) (regionQ : JStr) (subs : List JStr) :
    List ProviderRC :=
  ps.filter (fun p =>
    ciEq p.region regionQ
      && p.category.any (fun c => subs.any (fun sub => ciEq sub c)))

/-- No regex-special character (`(`, `)`, `.`) occurs in the string. -/
def metacharFree (s : JStr) : Bool :=
  s.all (fun c => decide (c ≠ 40 ∧ c ≠ 41 ∧ c ≠ 46))

lemma any_congr_mem {α : Type} (l : List α) (f g : α → Bool)
    (h : ∀ a ∈ l, f a = g a) : l.any f = l.any g := by
  induction l with
  | nil => rfl
  | cons x xs ih =>
    rw [List.any_cons, List.any_cons, h x (by simp),
      ih (fun a ha => h a (by simp [ha]))]

/-- On metacharacter-free patterns the regex matcher degenerates to
case-insensitive whole-string equality. -/
lemma patMatch_eq_ciEq (p : JStr) (h : metacharFree p = true) :
    ∀ s, patMatch p s = ciEq p s := by
  induction p with
  | nil =>
    intro s
    cases s with
    | nil => rfl
    | cons d s2 => simp [patMatch, ciEq, lowerStr]
  | cons c p ih =>
    unfold metacharFree at h
    rw [List.all_cons] at h
    simp only [Bool.and_eq_true, decide_eq_true_eq] at h
    obtain ⟨⟨h40, h41, h46⟩, hp⟩ := h
    have hp2 : metacharFree p = true := by
      unfold metacharFree
      simp only [List.all_eq_true, decide_eq_true_eq]
      simpa [List.all_eq_true] using hp
    intro s
    simp only [patMatch]
    rw [if_neg (by omega : ¬(c = 40 ∨ c = 41))]
    cases s with
    | nil => simp [ciEq, lowerStr]
    | cons d s2 =>
      dsimp only
      rw [if_neg h46, ih hp2 s2]
      simp [ciEq, lowerStr]

/-- Claim C6 (counterexample): the sub-category patterns are fed to
`RegExp` without escaping, so for sub-categories containing parentheses
the regex does NOT match the registered string itself: a provider in the
right region whose category array holds exactly the registered string
"Satellite Dish Installation (DSTV, GOTV)" is absent from the result set
for its main category "Informal & On-Demand Services", while the claimed
case-insensitive whole-string union contains it. -/
theorem C6_counterexample :
    regionCategoryResults
        [⟨js ("Ashanti"), [js ("Satellite Dish Installation (DSTV, GOTV)")]⟩]
        (js ("Ashanti")) (js ("Informal & On-Demand Services"))
      = [] ∧
    claimedResults
        [⟨js ("Ashanti"), [js ("Satellite Dish Installation (DSTV, GOTV)")]⟩]
        (js ("Ashanti"))
        ((lookupMainCategory (js ("Informal & On-Demand Services"))).getD [])
      = [⟨js ("Ashanti"), [js ("Satellite Dish Installation (DSTV, GOTV)")]⟩] := by
  constructor
  · decide
  · decide

/-- Claim C6 (corrected): for a known main category ALL of whose
registered sub-category strings are free of regex metacharacters, the
result set is exactly the claimed union — providers matching the region
whose category array contains some registered sub-category string,
compared case-insensitively as whole strings.  (For sub-categories
containing `(`, `)` or `.` the unescaped regex semantics apply instead,
as the counterexample shows.) -/
theorem C6_corrected (ps : List ProviderRC) (regionQ mc : JStr)
    (subs : List JStr) (hl : lookupMainCategory mc = some subs)
    (hfree : ∀ sub ∈ subs, metacharFree sub = true) :
    regionCategoryResults ps regionQ mc = claimedResults ps regionQ subs := by
  unfold regionCategoryResults claimedResults
  apply List.filter_congr
  intro p _
  have hcat : providerCategoryMatches mc p.category
      = p.category.any (fun c => subs.any (fun sub => ciEq sub c)) := by
    unfold providerCategoryMatches
    rw [hl]
    apply any_congr_mem
    intro c _
    apply any_congr_mem
    intro sub hsub
    exact patMatch_eq_ciEq sub (hfree sub hsub) c
  rw [hcat]

/-- Claim C6 (witness for the corrected theorem): "Plumbing & Water
Services" has metacharacter-free sub-categories; a provider listing
"PIPE LEAKAGE FIXING" (case-varied) in region Ashanti is returned and the
two result sets coincide. -/
theorem C6_corrected_witness :
    regionCategoryResults
        [⟨js ("Ashanti"), [js ("PIPE LEAKAGE FIXING")]⟩]
        (js ("Ashanti")) (js ("Plumbing & Water Services"))
      = claimedResults
          [⟨js ("Ashanti"), [js ("PIPE LEAKAGE FIXING")]⟩]
          (js ("Ashanti"))
          ((lookupMainCategory (js ("Plumbing & Water Services"))).getD []) :=
  C6_corrected
    [⟨js ("Ashanti"), [js ("PIPE LEAKAGE FIXING")]⟩]
    (js ("Ashanti")) (js ("Plumbing & Water Services"))
    ((lookupMainCategory (js ("Plumbing & Water Services"))).getD [])
    (by decide) (by decide)

end WorkIsReady
